import Mathlib

/-
Verification of the Windows plugin shim in
src/windows/flutter_thermal_printer_plugin.{h,cpp}: the liveness-guarded
method-call dispatcher. The embedding below translates the two source
files directly; the three VersionHelpers OS predicates are an explicit
environment (each call site reads one boolean, total, no fault path).
-/

namespace FlutterThermalPrinter

/-- Outcomes of the three VersionHelpers predicates read by
HandleMethodCall: IsWindows10OrGreater, IsWindows8OrGreater,
IsWindows7OrGreater. They are fixed for the lifetime of the process. -/
structure OsPredicates where
  isWindows10OrGreater : Bool
  isWindows8OrGreater : Bool
  isWindows7OrGreater : Bool
deriving DecidableEq, Repr

/-- A structured result delivered once through the flutter MethodResult
object: Success(value), Error(code, message) or NotImplemented. -/
inductive MethodResult where
  | success (value : String)
  | error (code : String) (message : String)
  | notImplemented
deriving DecidableEq, Repr

/-- The plugin object state: the single data member
std atomic bool disposed_, brace-initialized to false
(flutter_thermal_printer_plugin.h line 37). -/
structure PluginState where
  disposed_ : Bool
deriving DecidableEq, Repr

/-- The constructor FlutterThermalPrinterPlugin(): empty body, so the
member initializer leaves disposed_ false. -/
def construct : PluginState := { disposed_ := false }

/-- The destructor: disposed_.store(true). -/
def destruct (s : PluginState) : PluginState := { s with disposed_ := true }

/-- is_alive(): returns !disposed_ (flutter_thermal_printer_plugin.h
lines 28-29). -/
def is_alive (s : PluginState) : Bool := !s.disposed_

/-- The string built into version_stream by HandleMethodCall for
getPlatformVersion: "Windows " then "10+", "8" or "7" by the first
predicate that holds, and nothing when none holds. -/
def platformVersionString (os : OsPredicates) : String :=
  "Windows " ++
    (if os.isWindows10OrGreater then "10+"
     else if os.isWindows8OrGreater then "8"
     else if os.isWindows7OrGreater then "7"
     else "")

/-- FlutterThermalPrinterPlugin::HandleMethodCall: first the is_alive
guard, then dispatch on the method name. The pair returned is the object
state after the call together with the one result delivered; no branch
writes any member, so the state component is the input state in each
branch. -/
def HandleMethodCall (os : OsPredicates) (s : PluginState)
    (methodName : String) : PluginState × MethodResult :=
  if !(is_alive s) then
    (s, MethodResult.error "DISPOSED" "Plugin has been disposed.")
  else if methodName = "getPlatformVersion" then
    (s, MethodResult.success (platformVersionString os))
  else
    (s, MethodResult.notImplemented)

/-- The method-call handler lambda installed by RegisterWithRegistrar:
weak.lock() either fails (weakAlive false), in which case the lambda
itself reports the DISPOSED error, or produces the plugin and forwards
the call to HandleMethodCall. -/
def methodCallHandler (os : OsPredicates) (weakAlive : Bool)
    (s : PluginState) (methodName : String) : MethodResult :=
  if !weakAlive then
    MethodResult.error "DISPOSED" "Plugin has been disposed."
  else
    (HandleMethodCall os s methodName).2

/-- The operations that act on a constructed plugin object: servicing one
method call, or running the destructor at teardown. -/
inductive Op where
  | handle (methodName : String)
  | destroy
deriving DecidableEq, Repr

/-- Effect of one operation on the plugin state. -/
def applyOp (os : OsPredicates) (s : PluginState) : Op → PluginState
  | Op.handle name => (HandleMethodCall os s name).1
  | Op.destroy => destruct s

/-- Run a sequence of operations from a given state. -/
def runOps (os : OsPredicates) (s : PluginState) (ops : List Op) :
    PluginState :=
  ops.foldl (applyOp os) s

/-- Every branch of HandleMethodCall returns the input state: the method
body never writes disposed_ or any other member. -/
theorem HandleMethodCall_state (os : OsPredicates) (s : PluginState)
    (name : String) : (HandleMethodCall os s name).1 = s := by
  unfold HandleMethodCall
  split
  · rfl
  · split <;> rfl

/-- The version string is one of the four values the predicate chain can
produce, the bare "Windows " arising when no predicate holds. -/
theorem platformVersionString_cases (os : OsPredicates) :
    platformVersionString os = "Windows 10+" ∨
    platformVersionString os = "Windows 8" ∨
    platformVersionString os = "Windows 7" ∨
    platformVersionString os = "Windows " := by
  rcases os with ⟨b10, b8, b7⟩
  cases b10 <;> cases b8 <;> cases b7 <;> decide

/-- C1: after teardown has completed — the weak reference no longer locks
or the disposed flag is set — the channel handler returns the DISPOSED
error with message "Plugin has been disposed.", for every request name,
and nothing else. -/
theorem handler_disposed_after_teardown (os : OsPredicates)
    (weakAlive : Bool) (s : PluginState) (name : String)
    (h : weakAlive = false ∨ s.disposed_ = true) :
    methodCallHandler os weakAlive s name =
      MethodResult.error "DISPOSED" "Plugin has been disposed." := by
  rcases h with h | h
  · simp [methodCallHandler, h]
  · cases weakAlive <;>
      simp [methodCallHandler, HandleMethodCall, is_alive, h]

/-- Witness for C1: a disposed but still reachable plugin answers a
getPlatformVersion request with the DISPOSED error. -/
theorem handler_disposed_after_teardown_witness :
    methodCallHandler ⟨true, true, true⟩ true ⟨true⟩ "getPlatformVersion" =
      MethodResult.error "DISPOSED" "Plugin has been disposed." :=
  handler_disposed_after_teardown ⟨true, true, true⟩ true ⟨true⟩
    "getPlatformVersion" (Or.inr rfl)

/-- C2: while the handle is alive, a getPlatformVersion request yields a
success result whose payload is a non-empty string containing the
substring "Windows", for every outcome of the OS predicates. -/
theorem getPlatformVersion_success_contains_windows (os : OsPredicates)
    (s : PluginState) (h : is_alive s = true) :
    ∃ v : String,
      (HandleMethodCall os s "getPlatformVersion").2 =
        MethodResult.success v ∧
      0 < v.length ∧ ∃ a b : String, v = a ++ "Windows" ++ b := by
  refine ⟨platformVersionString os, by simp [HandleMethodCall, h], ?_, ?_⟩
  · rcases platformVersionString_cases os with h1 | h1 | h1 | h1 <;>
      rw [h1] <;> decide
  · rcases platformVersionString_cases os with h1 | h1 | h1 | h1 <;> rw [h1]
    · exact ⟨"", " 10+", by decide⟩
    · exact ⟨"", " 8", by decide⟩
    · exact ⟨"", " 7", by decide⟩
    · exact ⟨"", " ", by decide⟩

/-- Witness for C2: a fresh plugin on a Windows-8-tier host. -/
theorem getPlatformVersion_success_contains_windows_witness :
    ∃ v : String,
      (HandleMethodCall ⟨false, true, true⟩ ⟨false⟩
          "getPlatformVersion").2 = MethodResult.success v ∧
      0 < v.length ∧ ∃ a b : String, v = a ++ "Windows" ++ b :=
  getPlatformVersion_success_contains_windows ⟨false, true, true⟩ ⟨false⟩ rfl

/-- C3: while the handle is alive, any request name other than
getPlatformVersion is answered with the not-implemented result, hence
neither a success value nor the DISPOSED error. -/
theorem unrecognized_not_implemented (os : OsPredicates) (s : PluginState)
    (name : String) (h : is_alive s = true)
    (hn : name ≠ "getPlatformVersion") :
    (HandleMethodCall os s name).2 = MethodResult.notImplemented := by
  simp [HandleMethodCall, h, hn]

/-- Witness for C3: the request name "foo" on a fresh plugin. -/
theorem unrecognized_not_implemented_witness :
    (HandleMethodCall ⟨true, true, true⟩ ⟨false⟩ "foo").2 =
      MethodResult.notImplemented :=
  unrecognized_not_implemented ⟨true, true, true⟩ ⟨false⟩ "foo" rfl
    (by decide)

/-- Preservation: once disposed_ is set, no single operation clears it;
handling a call leaves the state untouched and destruction keeps the flag
set. -/
theorem applyOp_disposed (os : OsPredicates) (s : PluginState) (op : Op)
    (h : s.disposed_ = true) : (applyOp os s op).disposed_ = true := by
  cases op with
  | handle name =>
      rw [applyOp, HandleMethodCall_state]
      exact h
  | destroy => rfl

/-- Trace preservation: a disposed state stays disposed under any
sequence of operations. -/
theorem runOps_disposed (os : OsPredicates) (ops : List Op)
    (s : PluginState) (h : s.disposed_ = true) :
    (runOps os s ops).disposed_ = true := by
  induction ops generalizing s with
  | nil => exact h
  | cons op rest ih =>
      exact ih (applyOp os s op) (applyOp_disposed os s op h)

/-- C4: the liveness flag is monotone: construction leaves disposed_
false; HandleMethodCall never changes the flag, so destruction is the
only transition; destruction sets the flag; and once disposed the state
stays disposed under every further sequence of operations — Disposed is
terminal. -/
theorem disposed_monotone :
    construct.disposed_ = false ∧
    (∀ (os : OsPredicates) (s : PluginState) (name : String),
      ((HandleMethodCall os s name).1).disposed_ = s.disposed_) ∧
    (∀ s : PluginState, (destruct s).disposed_ = true) ∧
    (∀ (os : OsPredicates) (ops : List Op) (s : PluginState),
      s.disposed_ = true → (runOps os s ops).disposed_ = true) := by
  refine ⟨rfl, ?_, fun s => rfl, fun os ops s h => runOps_disposed os ops s h⟩
  intro os s name
  rw [HandleMethodCall_state]

/-- Witness for C4: a disposed plugin remains disposed after a further
method call and a repeated destruction. -/
theorem disposed_monotone_witness :
    (runOps ⟨true, true, true⟩ ⟨true⟩
        [Op.handle "getPlatformVersion", Op.destroy]).disposed_ = true :=
  disposed_monotone.2.2.2 ⟨true, true, true⟩
    [Op.handle "getPlatformVersion", Op.destroy] ⟨true⟩ rfl

/-- C5 counterexample: when none of the three OS predicates holds (a
pre-Windows-7 host), the success payload of getPlatformVersion is the
bare "Windows " — trailing space, empty version tier — which is none of
"Windows 10+", "Windows 8", "Windows 7", refuting the claim that the
payload always has the form of an OS family followed by a version
tier. -/
theorem version_format_counterexample :
    (HandleMethodCall ⟨false, false, false⟩ ⟨false⟩
        "getPlatformVersion").2 = MethodResult.success "Windows " ∧
    "Windows " ≠ "Windows 10+" ∧ "Windows " ≠ "Windows 8" ∧
    "Windows " ≠ "Windows 7" := by
  decide

/-- C5 amended: every successful getPlatformVersion payload is "Windows "
followed by the tier chosen by the predicates — "Windows 10+",
"Windows 8" or "Windows 7" — or the bare "Windows " with an empty tier
when no predicate holds. -/
theorem version_format_amended (os : OsPredicates) (s : PluginState)
    (h : is_alive s = true) :
    ∃ v : String,
      (HandleMethodCall os s "getPlatformVersion").2 =
        MethodResult.success v ∧
      (v = "Windows 10+" ∨ v = "Windows 8" ∨ v = "Windows 7" ∨
       v = "Windows ") :=
  ⟨platformVersionString os, by simp [HandleMethodCall, h],
    platformVersionString_cases os⟩

/-- Witness for the amended C5: a fresh plugin on a Windows-10 host. -/
theorem version_format_amended_witness :
    ∃ v : String,
      (HandleMethodCall ⟨true, true, true⟩ ⟨false⟩
          "getPlatformVersion").2 = MethodResult.success v ∧
      (v = "Windows 10+" ∨ v = "Windows 8" ∨ v = "Windows 7" ∨
       v = "Windows ") :=
  version_format_amended ⟨true, true, true⟩ ⟨false⟩ rfl

/-- C6: two successive getPlatformVersion requests handled while alive,
with the OS predicates fixed for the process, return the identical
success string both times. -/
theorem getPlatformVersion_idempotent (os : OsPredicates)
    (s : PluginState) (h : is_alive s = true) :
    (HandleMethodCall os ((HandleMethodCall os s "getPlatformVersion").1)
        "getPlatformVersion").2 =
      (HandleMethodCall os s "getPlatformVersion").2 ∧
    (HandleMethodCall os s "getPlatformVersion").2 =
      MethodResult.success (platformVersionString os) := by
  rw [HandleMethodCall_state]
  exact ⟨rfl, by simp [HandleMethodCall, h]⟩

/-- Witness for C6: two calls on a fresh plugin on a Windows-7 host. -/
theorem getPlatformVersion_idempotent_witness :
    (HandleMethodCall ⟨false, false, true⟩
        ((HandleMethodCall ⟨false, false, true⟩ ⟨false⟩
            "getPlatformVersion").1) "getPlatformVersion").2 =
      (HandleMethodCall ⟨false, false, true⟩ ⟨false⟩
          "getPlatformVersion").2 ∧
    (HandleMethodCall ⟨false, false, true⟩ ⟨false⟩
        "getPlatformVersion").2 =
      MethodResult.success (platformVersionString ⟨false, false, true⟩) :=
  getPlatformVersion_idempotent ⟨false, false, true⟩ ⟨false⟩ rfl

/-- C7: the channel handler delivers exactly one structured result for
every request name, liveness state and outcome of the OS version
predicates: a success value, the DISPOSED error or not-implemented; no
other outcome exists, so no fault escapes the dispatch entry point (the
OS version query in the source is a triple of total boolean calls,
ranged over by the OsPredicates argument). -/
theorem handler_total_structured (os : OsPredicates) (weakAlive : Bool)
    (s : PluginState) (name : String) :
    (∃ v : String,
        methodCallHandler os weakAlive s name = MethodResult.success v) ∨
    methodCallHandler os weakAlive s name =
      MethodResult.error "DISPOSED" "Plugin has been disposed." ∨
    methodCallHandler os weakAlive s name =
      MethodResult.notImplemented := by
  cases weakAlive with
  | false => exact Or.inr (Or.inl rfl)
  | true =>
    by_cases hd : s.disposed_ = true
    · exact Or.inr (Or.inl
        (by simp [methodCallHandler, HandleMethodCall, is_alive, hd]))
    · by_cases hn : name = "getPlatformVersion"
      · exact Or.inl ⟨platformVersionString os,
          by simp [methodCallHandler, HandleMethodCall, is_alive, hd, hn]⟩
      · exact Or.inr (Or.inr
          (by simp [methodCallHandler, HandleMethodCall, is_alive, hd, hn]))

/-- C9: frame condition: handling any request — any name, alive or
disposed — leaves the plugin state unchanged; in particular disposed_
has the same value after HandleMethodCall as before, and the state is
the only mutable data the dispatcher touches. -/
theorem handleMethodCall_frame (os : OsPredicates) (s : PluginState)
    (name : String) :
    (HandleMethodCall os s name).1 = s ∧
    ((HandleMethodCall os s name).1).disposed_ = s.disposed_ := by
  rw [HandleMethodCall_state]
  exact ⟨rfl, rfl⟩

/-- C10: a freshly constructed plugin is alive — disposed_ is initialized
false and the constructor body writes nothing — so the first request a
new, reachable handle receives is never answered with the DISPOSED
error. -/
theorem construct_alive :
    is_alive construct = true ∧
    ∀ (os : OsPredicates) (name : String),
      methodCallHandler os true construct name ≠
        MethodResult.error "DISPOSED" "Plugin has been disposed." := by
  refine ⟨rfl, ?_⟩
  intro os name
  by_cases hn : name = "getPlatformVersion" <;>
    simp [methodCallHandler, HandleMethodCall, is_alive, construct, hn]

end FlutterThermalPrinter
